import Mathlib

/- Shallow embedding of the notion-mcp server (src/main.py).

   The embedding covers:
   - a `Json` value type standing for Python's JSON-shaped dynamic values
     (dicts are association lists in insertion order, as Python dicts are);
   - `Json.truthy`, Python's truth test on those values;
   - the per-operation payload builders of `NotionClient` (query_database,
     search, get_block_children, create_page, update_page, ...), each a
     literal translation of the corresponding method body;
   - the retry loop of `NotionClient._make_request`, modelled as a function
     over a finite trace of per-attempt outcomes (each trace element is what
     the HTTP layer did on one attempt: a status-coded response or a
     requests-level exception);
   - the credential resolver (`get_connection_credentials` /
     `NotionClient._get_nango_token` / `NotionClient.__init__`), with the
     broker HTTP exchange abstracted as an `Except`-valued oracle;
   - the tool dispatcher `handle_call_tool`, with the network abstracted as
     an oracle from built requests to responses, and the list of client
     calls actually issued recorded in the result. -/

/-- JSON-shaped Python values. Objects keep insertion order like Python
dicts; `null` doubles as Python `None` (they are the same value at runtime). -/
inductive Json where
  | null : Json
  | bool (b : Bool) : Json
  | num (n : Int) : Json
  | str (s : String) : Json
  | arr (xs : List Json) : Json
  | obj (kvs : List (String × Json)) : Json

/-- Python truthiness on JSON-shaped values: None/False/0/""/[]/{} are falsy. -/
def Json.truthy : Json → Bool
  | Json.null => false
  | Json.bool b => b
  | Json.num n => n != 0
  | Json.str s => s != ""
  | Json.arr xs => !xs.isEmpty
  | Json.obj kvs => !kvs.isEmpty

mutual

/-- Models `json.dumps` of a JSON value (the `indent=2` layout of the source
is abstracted to a single-line rendering; no claim inspects this text). -/
def Json.dumps : Json → String
  | Json.null => "null"
  | Json.bool b => if b then "true" else "false"
  | Json.num n => toString n
  | Json.str s => "\"" ++ s ++ "\""
  | Json.arr xs => "[" ++ Json.dumpsElems xs ++ "]"
  | Json.obj kvs => "\x7b" ++ Json.dumpsFields kvs ++ "\x7d"

/-- Comma-separated rendering of array elements. -/
def Json.dumpsElems : List Json → String
  | [] => ""
  | [j] => Json.dumps j
  | j :: js => Json.dumps j ++ ", " ++ Json.dumpsElems js

/-- Comma-separated rendering of object fields. -/
def Json.dumpsFields : List (String × Json) → String
  | [] => ""
  | [(k, v)] => "\"" ++ k ++ "\": " ++ Json.dumps v
  | (k, v) :: kvs => "\"" ++ k ++ "\": " ++ Json.dumps v ++ ", " ++ Json.dumpsFields kvs

end

/-- Models Python string interpolation `str(x)` of a dynamic value as used in
f-string URL paths; container rendering is approximated by `Json.dumps`
(only string identifiers flow here in the modelled tool surface). -/
def Json.pyStr : Json → String
  | Json.str s => s
  | Json.null => "None"
  | Json.bool b => if b then "True" else "False"
  | Json.num n => toString n
  | j => Json.dumps j

/-- Models `if key_value:` followed by `data[key] = value` for an
`Optional[Dict]`/`Optional[List]` parameter (query_database/search/create_page). -/
def withOptJson (key : String) (v : Option Json) (l : List (String × Json)) :
    List (String × Json) :=
  match v with
  | some j => if j.truthy then l ++ [(key, j)] else l
  | none => l

/-- Models `if s:` followed by `data[key] = s` for an `Optional[str]` parameter. -/
def withOptStr (key : String) (v : Option String) (l : List (String × Json)) :
    List (String × Json) :=
  match v with
  | some s => if s ≠ "" then l ++ [(key, Json.str s)] else l
  | none => l

/-- Models `if page_size: data[key] = min(page_size, 100)` for the
`Optional[int]` page-size parameter. -/
def withOptPageSize (key : String) (v : Option Int) (l : List (String × Json)) :
    List (String × Json) :=
  match v with
  | some n => if n ≠ 0 then l ++ [(key, Json.num (min n 100))] else l
  | none => l

/-- Body built by `NotionClient.query_database` (src/main.py lines 130-144):
keys filter, sorts, start_cursor, page_size added in that order when truthy. -/
def query_database_body (filter_criteria sorts : Option Json)
    (start_cursor : Option String) (page_size : Option Int) :
    List (String × Json) :=
  withOptPageSize "page_size" page_size
    (withOptStr "start_cursor" start_cursor
      (withOptJson "sorts" sorts
        (withOptJson "filter" filter_criteria [])))

/-- Body built by `NotionClient.search` (lines 194-210): keys query, filter,
sorts, start_cursor, page_size added in that order when truthy. -/
def search_body (query : Option String) (filter_criteria sorts : Option Json)
    (start_cursor : Option String) (page_size : Option Int) :
    List (String × Json) :=
  withOptPageSize "page_size" page_size
    (withOptStr "start_cursor" start_cursor
      (withOptJson "sorts" sorts
        (withOptJson "filter" filter_criteria
          (withOptStr "query" query []))))

/-- Query params built by `NotionClient.get_block_children` (lines 178-187). -/
def get_block_children_params (start_cursor : Option String)
    (page_size : Option Int) : List (String × Json) :=
  withOptPageSize "page_size" page_size
    (withOptStr "start_cursor" start_cursor [])

/-- Body built by `NotionClient.create_page` (lines 159-168): parent and
properties always, children only when truthy. -/
def create_page_body (parent properties : Json) (children : Option Json) :
    List (String × Json) :=
  withOptJson "children" children
    [("parent", parent), ("properties", properties)]

/-- Body built by `NotionClient.update_page` (lines 170-176): properties
always; archived whenever it `is not None`, including `False`. -/
def update_page_body (properties : Json) (archived : Option Bool) :
    List (String × Json) :=
  match archived with
  | some b => [("properties", properties), ("archived", Json.bool b)]
  | none => [("properties", properties)]

/-- Body built by `NotionClient.create_database` (lines 146-153): the title is
wrapped as a rich-text array. -/
def create_database_body (parent : Json) (title : String) (properties : Json) :
    List (String × Json) :=
  [("parent", parent),
   ("title", Json.arr [Json.obj [("type", Json.str "text"),
                                 ("text", Json.obj [("content", Json.str title)])]]),
   ("properties", properties)]

/-- One request handed to `NotionClient._make_request`: HTTP method, endpoint
path (relative to the fixed base URL), optional JSON body, optional query
params — exactly the primitive's argument list. -/
structure ClientCall where
  method : String
  endpoint : String
  data : Option (List (String × Json))
  params : Option (List (String × Json))

/-- `NotionClient.get_database` (line 126). -/
def NotionClient.get_database (database_id : String) : ClientCall :=
  ⟨"GET", "databases/" ++ database_id, none, none⟩

/-- `NotionClient.query_database` (line 130). -/
def NotionClient.query_database (database_id : String)
    (filter_criteria sorts : Option Json) (start_cursor : Option String)
    (page_size : Option Int) : ClientCall :=
  ⟨"POST", "databases/" ++ database_id ++ "/query",
    some (query_database_body filter_criteria sorts start_cursor page_size), none⟩

/-- `NotionClient.create_database` (line 146). -/
def NotionClient.create_database (parent : Json) (title : String)
    (properties : Json) : ClientCall :=
  ⟨"POST", "databases", some (create_database_body parent title properties), none⟩

/-- `NotionClient.get_page` (line 155). -/
def NotionClient.get_page (page_id : String) : ClientCall :=
  ⟨"GET", "pages/" ++ page_id, none, none⟩

/-- `NotionClient.create_page` (line 159). -/
def NotionClient.create_page (parent properties : Json)
    (children : Option Json) : ClientCall :=
  ⟨"POST", "pages", some (create_page_body parent properties children), none⟩

/-- `NotionClient.update_page` (line 170). -/
def NotionClient.update_page (page_id : String) (properties : Json)
    (archived : Option Bool) : ClientCall :=
  ⟨"PATCH", "pages/" ++ page_id, some (update_page_body properties archived), none⟩

/-- `NotionClient.get_block_children` (line 178). -/
def NotionClient.get_block_children (block_id : String)
    (start_cursor : Option String) (page_size : Option Int) : ClientCall :=
  ⟨"GET", "blocks/" ++ block_id ++ "/children", none,
    some (get_block_children_params start_cursor page_size)⟩

/-- `NotionClient.append_block_children` (line 189). -/
def NotionClient.append_block_children (block_id : String) (children : Json) :
    ClientCall :=
  ⟨"PATCH", "blocks/" ++ block_id ++ "/children", some [("children", children)], none⟩

/-- `NotionClient.search` (line 194). -/
def NotionClient.search (query : Option String)
    (filter_criteria sorts : Option Json) (start_cursor : Option String)
    (page_size : Option Int) : ClientCall :=
  ⟨"POST", "search", some (search_body query filter_criteria sorts start_cursor page_size), none⟩

/-- `NotionClient.get_current_user` (line 212). -/
def NotionClient.get_current_user : ClientCall :=
  ⟨"GET", "users/me", none, none⟩

/- Retry loop of `NotionClient._make_request` (src/main.py lines 91-123).

   The HTTP layer is abstracted as a finite trace of per-attempt outcomes:
   each element is either an HTTP response (status code, optional
   `Retry-After` header value, optional parsed body — `none` body models
   empty `response.content`) or a `requests`-level exception carrying its
   message. The loop consumes one trace element per HTTP attempt. -/

/-- What the HTTP layer did on one attempt of `_make_request`. -/
inductive AttemptOutcome where
  | response (status : Nat) (retryAfter : Option Int) (body : Option Json)
  | netExc (msg : String)

/-- How a run of `_make_request` ended: a returned JSON body, a raised
`NotionAPIError`, the loop still wanting a further attempt when the supplied
trace ran out (`running` carries the current retry counter), or the Python
function falling off the `while` and returning `None`. -/
inductive ReqOutcome where
  | ok (body : Json)
  | apiError (msg : String)
  | running (retry_count : Nat)
  | noneReturn

/-- Observable effect of a run: final outcome, the `time.sleep` durations in
order, and how many HTTP attempts were made. -/
structure RunResult where
  outcome : ReqOutcome
  sleeps : List Int
  attempts : Nat

/-- `max_retries = 3` (line 95). -/
def max_retries : Nat := 3

/-- Message of the `NotionAPIError` raised at line 121. -/
def api_fail_msg (e : String) : String :=
  "API request failed after " ++ toString max_retries ++ " retries: " ++ e

/-- Models `str(requests.exceptions.HTTPError)` produced by
`response.raise_for_status()` for a 4xx/5xx status (exact library wording
abstracted; only the status classification matters). -/
def http_error_msg (status : Nat) : String :=
  toString status ++ (if status < 500 then " Client Error" else " Server Error")

/-- The `while retry_count < max_retries` loop of `_make_request`, one trace
element per HTTP attempt. A 429 sleeps `Retry-After` (default 1) and
continues WITHOUT touching `retry_count`; `raise_for_status` raises for
4xx/5xx, and that `HTTPError` is a `RequestException`, so it takes the same
except-branch as a network failure: raise `NotionAPIError` when
`retry_count == max_retries - 1`, else increment, sleep 1, retry. Any other
status returns the parsed body (or `{}` when the content is empty). -/
def make_request_loop (retry_count : Nat) (trace : List AttemptOutcome) : RunResult :=
  if retry_count < max_retries then
    match trace with
    | [] => ⟨ReqOutcome.running retry_count, [], 0⟩
    | AttemptOutcome.netExc msg :: rest =>
      if retry_count = max_retries - 1 then
        ⟨ReqOutcome.apiError (api_fail_msg msg), [], 1⟩
      else
        let r := make_request_loop (retry_count + 1) rest
        ⟨r.outcome, 1 :: r.sleeps, r.attempts + 1⟩
    | AttemptOutcome.response status retryAfter body :: rest =>
      if status = 429 then
        let r := make_request_loop retry_count rest
        ⟨r.outcome, retryAfter.getD 1 :: r.sleeps, r.attempts + 1⟩
      else if 400 ≤ status ∧ status < 600 then
        if retry_count = max_retries - 1 then
          ⟨ReqOutcome.apiError (api_fail_msg (http_error_msg status)), [], 1⟩
        else
          let r := make_request_loop (retry_count + 1) rest
          ⟨r.outcome, 1 :: r.sleeps, r.attempts + 1⟩
      else
        ⟨ReqOutcome.ok (body.getD (Json.obj [])), [], 1⟩
  else ⟨ReqOutcome.noneReturn, [], 0⟩

/-- `_make_request` entered with `retry_count = 0` (line 96). -/
def make_request (trace : List AttemptOutcome) : RunResult :=
  make_request_loop 0 trace

/- Credential resolver: `get_connection_credentials` (lines 30-48),
   `NotionClient._get_nango_token` (lines 76-89) and the auth part of
   `NotionClient.__init__` (lines 53-68). The whole broker HTTP exchange of
   `get_connection_credentials` (env check, GET, `raise_for_status`,
   `.json()`) is abstracted as one `Except String Json` oracle: `error`
   means that call raised (missing env vars, non-2xx, ...), `ok` is the
   parsed JSON response. -/

/-- Models `'k' in d` followed by `d[k]` on a dict-shaped value. -/
def Json.member (j : Json) (k : String) : Option Json :=
  match j with
  | Json.obj kvs => kvs.lookup k
  | _ => none

/-- Message wrapping of the outer `except Exception` at line 89. -/
def nango_wrap (e : String) : String :=
  "Failed to get credentials from Nango: " ++ e

/-- `NotionClient._get_nango_token`: on a response with a `credentials` key it
returns `credentials['credentials'].get('access_token')` — an `Option`, i.e.
Python `None` when that inner dict has no such key (no error is raised);
`.get` on a non-dict raises, which the outer except wraps. Otherwise it
falls back to a top-level `access_token`, else raises `NotionAuthError`,
which the outer except re-wraps into another `NotionAuthError`. -/
def get_nango_token (fetch : Except String Json) : Except String (Option Json) :=
  match fetch with
  | Except.error e => Except.error (nango_wrap e)
  | Except.ok credentials =>
    match credentials.member "credentials" with
    | some creds =>
      match creds with
      | Json.obj kvs => Except.ok (kvs.lookup "access_token")
      | _ => Except.error (nango_wrap "object has no attribute get")
    | none =>
      match credentials.member "access_token" with
      | some v => Except.ok (some v)
      | none => Except.error (nango_wrap "No access token found in Nango credentials response")

/-- Python truthiness of an `Optional[str]`: `None` and `""` are falsy. -/
def strTruthy : Option String → Bool
  | some s => s != ""
  | none => false

/-- Python `a or b` on `Optional[str]` values (first truthy wins), as used for
the environment-variable fallbacks at lines 59-60. -/
def py_or (a b : Option String) : Option String :=
  if strTruthy a then a else b

/-- The `NotionAuthError` message raised at line 68. -/
def no_credentials_msg : String :=
  "Either auth_token or both nango_connection_id and nango_provider_config_key must be provided"

/-- Result of the auth part of `__init__`: the resolved token (or the raised
`NotionAuthError` message) plus whether the Nango broker path — the only
network call — was entered at all. -/
structure InitResult where
  token : Except String Json
  broker_called : Bool

/-- Auth-token resolution in `NotionClient.__init__` (lines 53-68): a truthy
`auth_token` wins; else, when both broker identifiers (argument or
environment fallback) are truthy, `_get_nango_token` runs (the broker call);
else `NotionAuthError` is raised with no network activity. A token of
Python `None` coming back from `_get_nango_token` is stored as-is. -/
def client_init (auth_token nango_connection_id nango_provider_config_key
    env_conn env_key : Option String) (fetch : Except String Json) : InitResult :=
  let conn := py_or nango_connection_id env_conn
  let key := py_or nango_provider_config_key env_key
  if strTruthy auth_token then
    ⟨Except.ok (Json.str (auth_token.getD "")), false⟩
  else if strTruthy conn && strTruthy key then
    ⟨match get_nango_token fetch with
      | Except.ok (some v) => Except.ok v
      | Except.ok none => Except.ok Json.null
      | Except.error e => Except.error e, true⟩
  else ⟨Except.error no_credentials_msg, false⟩

/- Tool dispatcher: `handle_call_tool` (src/main.py lines 360-462) and the
   tool registry declared by `handle_list_tools` (lines 234-358). The
   `arguments` dict is an association list of JSON-shaped values; the network
   behind the built `ClientCall` is abstracted as a `respond` oracle whose
   `error` case is the `str()` of the exception the client method raised
   (e.g. a `NotionAPIError` message). The dispatcher records every client
   call it actually issues. -/

/-- `arguments` mapping of one tool invocation. -/
abbrev Args := List (String × Json)

/-- One `types.TextContent(type="text", text=...)` item. -/
structure TextContent where
  type : String
  text : String

/-- Builds a text content item. -/
def mkText (s : String) : TextContent :=
  ⟨"text", s⟩

/-- What one dispatch produced: the returned content list, plus the client
calls issued (so "makes no API call" is checkable). -/
structure DispatchResult where
  contents : List TextContent
  calls : List ClientCall

/-- The `str()` of the `KeyError` raised by `arguments[k]`: the key in single
quotes. -/
def key_error_msg (k : String) : String :=
  "\x27" ++ k ++ "\x27"

/-- Models `arguments[k]`: the value, or the raised `KeyError` whose `str()`
is the quoted key. -/
def getReq (arguments : Args) (k : String) : Except String Json :=
  match arguments.lookup k with
  | some v => Except.ok v
  | none => Except.error (key_error_msg k)

/-- Models `arguments.get(k)` flowing into an `Optional[str]` parameter:
Python `None` (absent key or JSON null) and falsy values are never included
downstream, so they collapse to `none`; truthy values are kept (rendered by
`pyStr`; the modelled tool surface only passes strings here). -/
def pyOptStr (o : Option Json) : Option String :=
  match o with
  | some j => if j.truthy then some j.pyStr else none
  | none => none

/-- Models `arguments.get(k)` flowing into the `Optional[int]` page-size
parameter (the tool schema declares it an integer). -/
def pyOptInt (o : Option Json) : Option Int :=
  match o with
  | some (Json.num n) => some n
  | _ => none

/-- Models `arguments.get(k)` flowing into the `Optional[bool]` archived
parameter (the tool schema declares it a boolean); an absent key or JSON
null is Python `None`. -/
def pyOptBool (o : Option Json) : Option Bool :=
  match o with
  | some (Json.bool b) => some b
  | _ => none

/-- Models `arguments.get(k)` for a pass-through `Optional[Dict]`/
`Optional[List]` parameter: an explicit JSON null is Python `None`. -/
def pyOptJson (o : Option Json) : Option Json :=
  match o with
  | some Json.null => none
  | o => o

/-- `notion_search` branch (lines 367-381): `filter_type`, when truthy, is
wrapped into the `{"property": "object", "value": filter_type}` filter. -/
def dispatch_notion_search (arguments : Args) : Except String ClientCall :=
  let query := pyOptStr (arguments.lookup "query")
  let filter_type := pyOptStr (arguments.lookup "filter_type")
  let page_size := pyOptInt (arguments.lookup "page_size")
  let filter_criteria : Option Json :=
    match filter_type with
    | some ft => some (Json.obj [("property", Json.str "object"), ("value", Json.str ft)])
    | none => none
  Except.ok (NotionClient.search query filter_criteria none none page_size)

/-- `notion_get_database` branch (lines 383-386). -/
def dispatch_notion_get_database (arguments : Args) : Except String ClientCall := do
  let database_id ← getReq arguments "database_id"
  return NotionClient.get_database database_id.pyStr

/-- `notion_query_database` branch (lines 388-400). -/
def dispatch_notion_query_database (arguments : Args) : Except String ClientCall := do
  let database_id ← getReq arguments "database_id"
  let filter_criteria := pyOptJson (arguments.lookup "filter_criteria")
  let sorts := pyOptJson (arguments.lookup "sorts")
  let page_size := pyOptInt (arguments.lookup "page_size")
  return NotionClient.query_database database_id.pyStr filter_criteria sorts none page_size

/-- `notion_create_database` branch (lines 402-409). -/
def dispatch_notion_create_database (arguments : Args) : Except String ClientCall := do
  let parent_page_id ← getReq arguments "parent_page_id"
  let title ← getReq arguments "title"
  let properties ← getReq arguments "properties"
  let parent : Json := Json.obj [("type", Json.str "page_id"), ("page_id", parent_page_id)]
  return NotionClient.create_database parent title.pyStr properties

/-- `notion_get_page` branch (lines 411-414). -/
def dispatch_notion_get_page (arguments : Args) : Except String ClientCall := do
  let page_id ← getReq arguments "page_id"
  return NotionClient.get_page page_id.pyStr

/-- `notion_create_page` branch (lines 416-428): `parent_type == "database"`
selects the `database_id` parent shape, anything else the `page_id` shape. -/
def dispatch_notion_create_page (arguments : Args) : Except String ClientCall := do
  let parent_type ← getReq arguments "parent_type"
  let parent_id ← getReq arguments "parent_id"
  let properties ← getReq arguments "properties"
  let children := pyOptJson (arguments.lookup "children")
  let parent : Json :=
    match parent_type with
    | Json.str s =>
      if s = "database" then
        Json.obj [("type", Json.str "database_id"), ("database_id", parent_id)]
      else
        Json.obj [("type", Json.str "page_id"), ("page_id", parent_id)]
    | _ => Json.obj [("type", Json.str "page_id"), ("page_id", parent_id)]
  return NotionClient.create_page parent properties children

/-- `notion_update_page` branch (lines 430-436). -/
def dispatch_notion_update_page (arguments : Args) : Except String ClientCall := do
  let page_id ← getReq arguments "page_id"
  let properties ← getReq arguments "properties"
  let archived := pyOptBool (arguments.lookup "archived")
  return NotionClient.update_page page_id.pyStr properties archived

/-- `notion_get_block_children` branch (lines 438-443). -/
def dispatch_notion_get_block_children (arguments : Args) : Except String ClientCall := do
  let block_id ← getReq arguments "block_id"
  let page_size := pyOptInt (arguments.lookup "page_size")
  return NotionClient.get_block_children block_id.pyStr none page_size

/-- `notion_append_blocks` branch (lines 445-450). -/
def dispatch_notion_append_blocks (arguments : Args) : Except String ClientCall := do
  let block_id ← getReq arguments "block_id"
  let children ← getReq arguments "children"
  return NotionClient.append_block_children block_id.pyStr children

/-- `notion_get_current_user` branch (lines 452-454). -/
def dispatch_notion_get_current_user (_arguments : Args) : Except String ClientCall :=
  Except.ok NotionClient.get_current_user

/-- The ten tool names registered by `handle_list_tools`, in declaration
order. -/
def tool_names : List String :=
  ["notion_search", "notion_get_database", "notion_query_database",
   "notion_create_database", "notion_get_page", "notion_create_page",
   "notion_update_page", "notion_get_block_children", "notion_append_blocks",
   "notion_get_current_user"]

/-- The `required` list of each tool's input schema in `handle_list_tools`;
unregistered names have no schema. -/
def required_args : String → List String
  | "notion_get_database" => ["database_id"]
  | "notion_query_database" => ["database_id"]
  | "notion_create_database" => ["parent_page_id", "title", "properties"]
  | "notion_get_page" => ["page_id"]
  | "notion_create_page" => ["parent_type", "parent_id", "properties"]
  | "notion_update_page" => ["page_id", "properties"]
  | "notion_get_block_children" => ["block_id"]
  | "notion_append_blocks" => ["block_id", "children"]
  | _ => []

/-- The name-keyed branch selection of `handle_call_tool`: `none` is the
final `else` (unknown tool); each branch's argument extraction may raise
(the `Except.error` carries the exception's `str()`). -/
def tool_call (name : String) (arguments : Args) : Option (Except String ClientCall) :=
  if name = "notion_search" then some (dispatch_notion_search arguments)
  else if name = "notion_get_database" then some (dispatch_notion_get_database arguments)
  else if name = "notion_query_database" then some (dispatch_notion_query_database arguments)
  else if name = "notion_create_database" then some (dispatch_notion_create_database arguments)
  else if name = "notion_get_page" then some (dispatch_notion_get_page arguments)
  else if name = "notion_create_page" then some (dispatch_notion_create_page arguments)
  else if name = "notion_update_page" then some (dispatch_notion_update_page arguments)
  else if name = "notion_get_block_children" then some (dispatch_notion_get_block_children arguments)
  else if name = "notion_append_blocks" then some (dispatch_notion_append_blocks arguments)
  else if name = "notion_get_current_user" then some (dispatch_notion_get_current_user arguments)
  else none

/-- `handle_call_tool` (lines 360-462). An uninitialized client
short-circuits; an unknown name yields the "Unknown tool" text; an exception
during argument extraction or from the API call (the `respond` oracle's
`error`) is caught and rendered as `"Error executing {name}: {str(e)}"`. The
embedding is a total function: no exception ever escapes to the caller. -/
def handle_call_tool (initialized : Bool) (respond : ClientCall → Except String Json)
    (name : String) (arguments : Args) : DispatchResult :=
  if initialized then
    match tool_call name arguments with
    | none => ⟨[mkText ("Unknown tool: " ++ name)], []⟩
    | some (Except.error e) =>
      ⟨[mkText ("Error executing " ++ name ++ ": " ++ e)], []⟩
    | some (Except.ok call) =>
      match respond call with
      | Except.ok result => ⟨[mkText (Json.dumps result)], [call]⟩
      | Except.error e =>
        ⟨[mkText ("Error executing " ++ name ++ ": " ++ e)], [call]⟩
  else ⟨[mkText "Error: Notion client not initialized"], []⟩

/- Theorems. -/

/-- Appending a fresh key at the end of an association list does not change
lookups of other keys. -/
theorem lookup_append_ne (l : List (String × Json)) (key k : String) (v : Json)
    (h : k ≠ key) : (l ++ [(key, v)]).lookup k = l.lookup k := by
  have hb : (k == key) = false := beq_false_of_ne h
  induction l with
  | nil => simp [List.lookup_cons, hb]
  | cons a l ih =>
    obtain ⟨k', v'⟩ := a
    by_cases hk : k = k' <;> simp [List.lookup_cons, hk, hb, ih]

/-- Looking up a key appended at the end of an association list that did not
contain it finds the appended value. -/
theorem lookup_append_self (l : List (String × Json)) (k : String) (v : Json)
    (h : l.lookup k = none) : (l ++ [(k, v)]).lookup k = some v := by
  induction l with
  | nil => simp
  | cons a l ih =>
    obtain ⟨k', v'⟩ := a
    rw [List.lookup_cons] at h
    rw [List.cons_append, List.lookup_cons]
    cases hkk : (k == k') with
    | true =>
      rw [hkk] at h
      exact Option.noConfusion h
    | false =>
      rw [hkk] at h
      exact ih h

/-- `withOptJson` never touches other keys. -/
theorem lookup_withOptJson_ne (key k : String) (v : Option Json)
    (l : List (String × Json)) (h : k ≠ key) :
    (withOptJson key v l).lookup k = l.lookup k := by
  cases v with
  | none => rfl
  | some j =>
    simp only [withOptJson]
    split
    · exact lookup_append_ne l key k j h
    · rfl

/-- `withOptStr` never touches other keys. -/
theorem lookup_withOptStr_ne (key k : String) (v : Option String)
    (l : List (String × Json)) (h : k ≠ key) :
    (withOptStr key v l).lookup k = l.lookup k := by
  cases v with
  | none => rfl
  | some s =>
    simp only [withOptStr]
    split
    · exact lookup_append_ne l key k _ h
    · rfl

/-- A nonzero supplied page size is appended clamped through `min · 100`. -/
theorem withOptPageSize_pos (key : String) (n : Int) (l : List (String × Json))
    (h : n ≠ 0) : withOptPageSize key (some n) l = l ++ [(key, Json.num (min n 100))] := by
  simp [withOptPageSize, h]

/-- C1 counterexample: the claim says a non-2xx, non-429 status (here 404 on
the first attempt) makes the call fail immediately with APIError, with no
further retry. In fact the `HTTPError` raised by `raise_for_status` is a
`RequestException`, so the client sleeps 1 second, retries, and here the
second attempt succeeds: two attempts are made and the call returns the
body — no APIError ever arises. -/
theorem c1_counterexample :
    make_request [AttemptOutcome.response 404 none none,
                  AttemptOutcome.response 200 none (some (Json.obj [("object", Json.str "list")]))]
      = ⟨ReqOutcome.ok (Json.obj [("object", Json.str "list")]), [1], 2⟩ := rfl

/-- C1 (amended): on an HTTP status in [400, 600) other than 429 on every
attempt, the raised HTTP error is caught like a network exception: the
client sleeps 1 second and retries, and only after 3 total attempts fails
with `NotionAPIError` wrapping the HTTP error message. -/
theorem c1_http_error_retried_then_api_error (status : Nat)
    (h1 : 400 ≤ status) (h2 : status < 600) (h3 : status ≠ 429) :
    make_request [AttemptOutcome.response status none none,
                  AttemptOutcome.response status none none,
                  AttemptOutcome.response status none none]
      = ⟨ReqOutcome.apiError (api_fail_msg (http_error_msg status)), [1, 1], 3⟩ := by
  simp [make_request, make_request_loop, h1, h2, h3, max_retries]

/-- C1 witness: the amended statement at status 404. -/
theorem c1_witness :
    make_request [AttemptOutcome.response 404 none none,
                  AttemptOutcome.response 404 none none,
                  AttemptOutcome.response 404 none none]
      = ⟨ReqOutcome.apiError (api_fail_msg (http_error_msg 404)), [1, 1], 3⟩ :=
  c1_http_error_retried_then_api_error 404 (by decide) (by decide) (by decide)

/-- C2 counterexample: the claim says that under persistent 429 responses
with `Retry-After: 2` the client gives up after 3 total attempts. On a trace
of four straight 429s the loop makes a 4th attempt (sleeping 2 seconds after
each 429) and is still running with its retry counter untouched at 0 — it
has not given up, so the attempt count is not bounded by 3. -/
theorem c2_counterexample :
    make_request (List.replicate 4 (AttemptOutcome.response 429 (some 2) none))
      = ⟨ReqOutcome.running 0, [2, 2, 2, 2], 4⟩ := rfl

/-- C2 (amended): on every 429 response with `Retry-After: 2` the client
sleeps 2 seconds and retries the same request, but the 429 branch never
increments the retry counter, so under persistent rate limiting it makes
unboundedly many attempts and never gives up: after any number n of straight
429s it has made n attempts, slept 2 seconds after each, raised no error,
and still has retry counter 0. -/
theorem c2_rate_limit_unbounded (n : Nat) :
    make_request_loop 0 (List.replicate n (AttemptOutcome.response 429 (some 2) none)) =
      ⟨ReqOutcome.running 0, List.replicate n 2, n⟩ := by
  induction n with
  | zero => rfl
  | succ n ih =>
    rw [List.replicate_succ, make_request_loop]
    simp [ih, max_retries, List.replicate_succ]

/-- C3: when all 3 attempts raise a network-level exception, `_make_request`
fails with `NotionAPIError` wrapping the last exception's message (after
sleeping 1 second between attempts); and when the 2nd of 3 attempts
succeeds, it returns the successful parsed JSON body. -/
theorem c3_network_failures_and_second_attempt_success
    (m1 m2 m3 : String) (body : Json) :
    make_request [AttemptOutcome.netExc m1, AttemptOutcome.netExc m2,
                  AttemptOutcome.netExc m3]
      = ⟨ReqOutcome.apiError (api_fail_msg m3), [1, 1], 3⟩
    ∧ make_request [AttemptOutcome.netExc m1,
                    AttemptOutcome.response 200 none (some body)]
      = ⟨ReqOutcome.ok body, [1], 2⟩ :=
  ⟨rfl, rfl⟩

/-- C8: evaluation of `_get_nango_token` at the failing input — a broker
response `{"credentials": {}}` holding no access token in either place.
Instead of raising `NotionAuthError`, the code returns
`credentials['credentials'].get('access_token')`, i.e. Python `None`,
yielding a token-less client whose Authorization header becomes
"Bearer None". -/
theorem c8_token_none_on_credentials_without_token :
    get_nango_token (Except.ok (Json.obj [("credentials", Json.obj [])])) =
      Except.ok none := rfl

/-- C9: constructing the client with neither a truthy static auth token nor
both broker identifiers truthy (after their environment fallbacks) raises
`NotionAuthError` with its fixed message, and the broker path — the only
network call — is never entered. -/
theorem c9_no_credentials_auth_error
    (auth conn key econn ekey : Option String) (fetch : Except String Json)
    (h1 : strTruthy auth = false)
    (h2 : (strTruthy (py_or conn econn) && strTruthy (py_or key ekey)) = false) :
    client_init auth conn key econn ekey fetch =
      ⟨Except.error no_credentials_msg, false⟩ := by
  simp [client_init, h1, h2]

/-- C9 witness: no token, no identifiers, no environment fallbacks; the
broker oracle would fail but is never consulted. -/
theorem c9_witness :
    client_init none none none none none (Except.error "unreachable") =
      ⟨Except.error no_credentials_msg, false⟩ :=
  c9_no_credentials_auth_error none none none none none (Except.error "unreachable")
    (by decide) (by decide)

/-- C4: for every operation accepting a page size (query_database, search,
get_block_children), a supplied page size greater than 100 reaches the
upstream payload as exactly 100, whatever the other arguments are. -/
theorem c4_page_size_clamped (filter_criteria sorts : Option Json)
    (start_cursor query : Option String) (ps : Int) (h : 100 < ps) :
    (query_database_body filter_criteria sorts start_cursor (some ps)).lookup "page_size"
      = some (Json.num 100)
    ∧ (search_body query filter_criteria sorts start_cursor (some ps)).lookup "page_size"
      = some (Json.num 100)
    ∧ (get_block_children_params start_cursor (some ps)).lookup "page_size"
      = some (Json.num 100) := by
  have h0 : ps ≠ 0 := by omega
  have hmin : min ps 100 = 100 := min_eq_right (by omega)
  refine ⟨?_, ?_, ?_⟩
  · rw [query_database_body, withOptPageSize_pos _ _ _ h0, hmin]
    apply lookup_append_self
    rw [lookup_withOptStr_ne _ _ _ _ (by decide),
        lookup_withOptJson_ne _ _ _ _ (by decide),
        lookup_withOptJson_ne _ _ _ _ (by decide)]
    rfl
  · rw [search_body, withOptPageSize_pos _ _ _ h0, hmin]
    apply lookup_append_self
    rw [lookup_withOptStr_ne _ _ _ _ (by decide),
        lookup_withOptJson_ne _ _ _ _ (by decide),
        lookup_withOptJson_ne _ _ _ _ (by decide),
        lookup_withOptStr_ne _ _ _ _ (by decide)]
    rfl
  · rw [get_block_children_params, withOptPageSize_pos _ _ _ h0, hmin]
    apply lookup_append_self
    rw [lookup_withOptStr_ne _ _ _ _ (by decide)]
    rfl

/-- C4 witness: page size 150 is sent as 100 by all three operations. -/
theorem c4_witness :
    (100 : Int) < 150
    ∧ (query_database_body none none none (some 150)).lookup "page_size" = some (Json.num 100)
    ∧ (search_body none none none none (some 150)).lookup "page_size" = some (Json.num 100)
    ∧ (get_block_children_params none (some 150)).lookup "page_size" = some (Json.num 100) := by
  have h := c4_page_size_clamped none none none none 150 (by decide)
  exact ⟨by decide, h.1, h.2.1, h.2.2⟩

/-- C10: every optional argument supplied with its falsy value (page_size 0,
empty query string, empty filter dict, empty sorts list, empty start_cursor)
yields the same upstream payload as when it is not supplied at all, across
query_database, search and get_block_children; the one exception is
update_page's archived flag, included exactly when it is not None —
including archived = false. -/
theorem c10_falsy_optionals_omitted (f s : Option Json) (c q : Option String)
    (ps : Option Int) (P : Json) (b : Bool) :
    query_database_body f s c (some 0) = query_database_body f s c none
    ∧ search_body q f s c (some 0) = search_body q f s c none
    ∧ get_block_children_params c (some 0) = get_block_children_params c none
    ∧ search_body (some "") f s c ps = search_body none f s c ps
    ∧ query_database_body (some (Json.obj [])) s c ps = query_database_body none s c ps
    ∧ search_body q (some (Json.obj [])) s c ps = search_body q none s c ps
    ∧ query_database_body f (some (Json.arr [])) c ps = query_database_body f none c ps
    ∧ search_body q f (some (Json.arr [])) c ps = search_body q f none c ps
    ∧ query_database_body f s (some "") ps = query_database_body f s none ps
    ∧ search_body q f s (some "") ps = search_body q f s none ps
    ∧ get_block_children_params (some "") ps = get_block_children_params none ps
    ∧ update_page_body P (some b) = [("properties", P), ("archived", Json.bool b)]
    ∧ update_page_body P none = [("properties", P)] := by
  refine ⟨?_, ?_, ?_, ?_, ?_, ?_, ?_, ?_, ?_, ?_, ?_, rfl, rfl⟩ <;>
    simp [query_database_body, search_body, get_block_children_params,
          withOptPageSize, withOptStr, withOptJson, Json.truthy]

/-- Binding a failed Except short-circuits. -/
theorem except_bind_error {ε α β : Type} (e : ε) (f : α → Except ε β) :
    ((Except.error e : Except ε α) >>= f) = Except.error e := rfl

/-- Binding a successful Except applies the continuation. -/
theorem except_bind_ok {ε α β : Type} (a : α) (f : α → Except ε β) :
    ((Except.ok a : Except ε α) >>= f) = f a := rfl

/-- C5: for every registered tool and every argument its schema marks
required, dispatching with an arguments mapping lacking that argument yields
an error text result of the form "Error executing {name}: {e}" — which
contains the tool name — and no client call is issued. The dispatcher is a
total function (the source catches every exception at the dispatch
boundary), so no exception reaches the caller. -/
theorem c5_missing_required_argument_error
    (respond : ClientCall → Except String Json) (name : String)
    (arguments : Args) (k : String)
    (hname : name ∈ tool_names) (hreq : k ∈ required_args name)
    (hmiss : arguments.lookup k = none) :
    ∃ e, handle_call_tool true respond name arguments =
      ⟨[mkText ("Error executing " ++ name ++ ": " ++ e)], []⟩ := by
  have herr : ∀ e, tool_call name arguments = some (Except.error e) →
      handle_call_tool true respond name arguments =
        ⟨[mkText ("Error executing " ++ name ++ ": " ++ e)], []⟩ := by
    intro e he
    simp [handle_call_tool, he]
  simp only [tool_names, List.mem_cons, List.not_mem_nil, or_false] at hname
  rcases hname with rfl | rfl | rfl | rfl | rfl | rfl | rfl | rfl | rfl | rfl
  · simp [required_args] at hreq
  · simp only [required_args, List.mem_singleton] at hreq
    subst hreq
    exact ⟨key_error_msg "database_id", herr _ (by
      simp [tool_call, dispatch_notion_get_database, getReq, hmiss, except_bind_error])⟩
  · simp only [required_args, List.mem_singleton] at hreq
    subst hreq
    exact ⟨key_error_msg "database_id", herr _ (by
      simp [tool_call, dispatch_notion_query_database, getReq, hmiss, except_bind_error])⟩
  · simp only [required_args, List.mem_cons, List.not_mem_nil, or_false] at hreq
    rcases hreq with rfl | rfl | rfl
    · exact ⟨key_error_msg "parent_page_id", herr _ (by
        simp [tool_call, dispatch_notion_create_database, getReq, hmiss, except_bind_error])⟩
    · rcases h1 : arguments.lookup "parent_page_id" with _ | v1
      · exact ⟨key_error_msg "parent_page_id", herr _ (by
          simp [tool_call, dispatch_notion_create_database, getReq, h1, except_bind_error])⟩
      · exact ⟨key_error_msg "title", herr _ (by
          simp [tool_call, dispatch_notion_create_database, getReq, h1, hmiss,
                except_bind_error, except_bind_ok])⟩
    · rcases h1 : arguments.lookup "parent_page_id" with _ | v1
      · exact ⟨key_error_msg "parent_page_id", herr _ (by
          simp [tool_call, dispatch_notion_create_database, getReq, h1, except_bind_error])⟩
      · rcases h2 : arguments.lookup "title" with _ | v2
        · exact ⟨key_error_msg "title", herr _ (by
            simp [tool_call, dispatch_notion_create_database, getReq, h1, h2,
                  except_bind_error, except_bind_ok])⟩
        · exact ⟨key_error_msg "properties", herr _ (by
            simp [tool_call, dispatch_notion_create_database, getReq, h1, h2, hmiss,
                  except_bind_error, except_bind_ok])⟩
  · simp only [required_args, List.mem_singleton] at hreq
    subst hreq
    exact ⟨key_error_msg "page_id", herr _ (by
      simp [tool_call, dispatch_notion_get_page, getReq, hmiss, except_bind_error])⟩
  · simp only [required_args, List.mem_cons, List.not_mem_nil, or_false] at hreq
    rcases hreq with rfl | rfl | rfl
    · exact ⟨key_error_msg "parent_type", herr _ (by
        simp [tool_call, dispatch_notion_create_page, getReq, hmiss, except_bind_error])⟩
    · rcases h1 : arguments.lookup "parent_type" with _ | v1
      · exact ⟨key_error_msg "parent_type", herr _ (by
          simp [tool_call, dispatch_notion_create_page, getReq, h1, except_bind_error])⟩
      · exact ⟨key_error_msg "parent_id", herr _ (by
          simp [tool_call, dispatch_notion_create_page, getReq, h1, hmiss,
                except_bind_error, except_bind_ok])⟩
    · rcases h1 : arguments.lookup "parent_type" with _ | v1
      · exact ⟨key_error_msg "parent_type", herr _ (by
          simp [tool_call, dispatch_notion_create_page, getReq, h1, except_bind_error])⟩
      · rcases h2 : arguments.lookup "parent_id" with _ | v2
        · exact ⟨key_error_msg "parent_id", herr _ (by
            simp [tool_call, dispatch_notion_create_page, getReq, h1, h2,
                  except_bind_error, except_bind_ok])⟩
        · exact ⟨key_error_msg "properties", herr _ (by
            simp [tool_call, dispatch_notion_create_page, getReq, h1, h2, hmiss,
                  except_bind_error, except_bind_ok])⟩
  · simp only [required_args, List.mem_cons, List.not_mem_nil, or_false] at hreq
    rcases hreq with rfl | rfl
    · exact ⟨key_error_msg "page_id", herr _ (by
        simp [tool_call, dispatch_notion_update_page, getReq, hmiss, except_bind_error])⟩
    · rcases h1 : arguments.lookup "page_id" with _ | v1
      · exact ⟨key_error_msg "page_id", herr _ (by
          simp [tool_call, dispatch_notion_update_page, getReq, h1, except_bind_error])⟩
      · exact ⟨key_error_msg "properties", herr _ (by
          simp [tool_call, dispatch_notion_update_page, getReq, h1, hmiss,
                except_bind_error, except_bind_ok])⟩
  · simp only [required_args, List.mem_singleton] at hreq
    subst hreq
    exact ⟨key_error_msg "block_id", herr _ (by
      simp [tool_call, dispatch_notion_get_block_children, getReq, hmiss, except_bind_error])⟩
  · simp only [required_args, List.mem_cons, List.not_mem_nil, or_false] at hreq
    rcases hreq with rfl | rfl
    · exact ⟨key_error_msg "block_id", herr _ (by
        simp [tool_call, dispatch_notion_append_blocks, getReq, hmiss, except_bind_error])⟩
    · rcases h1 : arguments.lookup "block_id" with _ | v1
      · exact ⟨key_error_msg "block_id", herr _ (by
          simp [tool_call, dispatch_notion_append_blocks, getReq, h1, except_bind_error])⟩
      · exact ⟨key_error_msg "children", herr _ (by
          simp [tool_call, dispatch_notion_append_blocks, getReq, h1, hmiss,
                except_bind_error, except_bind_ok])⟩
  · simp [required_args] at hreq

/-- C5 witness: `notion_get_database` called with an empty arguments mapping
lacks its required `database_id`. -/
theorem c5_witness :
    ∃ e, handle_call_tool true (fun _ => Except.ok Json.null)
        "notion_get_database" [] =
      ⟨[mkText ("Error executing " ++ "notion_get_database" ++ ": " ++ e)], []⟩ :=
  c5_missing_required_argument_error (fun _ => Except.ok Json.null)
    "notion_get_database" [] "database_id" (by decide) (by decide) rfl

/-- C6: dispatching any name outside the registered set of 10 tools, with an
initialized client, returns exactly the text "Unknown tool: {name}" and
issues no client call. -/
theorem c6_unknown_tool_text (respond : ClientCall → Except String Json)
    (name : String) (arguments : Args) (h : name ∉ tool_names) :
    handle_call_tool true respond name arguments =
      ⟨[mkText ("Unknown tool: " ++ name)], []⟩ := by
  simp [tool_names, List.mem_cons, not_or] at h
  obtain ⟨h1, h2, h3, h4, h5, h6, h7, h8, h9, h10⟩ := h
  simp [handle_call_tool, tool_call, h1, h2, h3, h4, h5, h6, h7, h8, h9, h10]

/-- C6 witness: the unregistered name "bogus_tool". -/
theorem c6_witness :
    handle_call_tool true (fun _ => Except.ok Json.null) "bogus_tool" [] =
      ⟨[mkText ("Unknown tool: " ++ "bogus_tool")], []⟩ :=
  c6_unknown_tool_text (fun _ => Except.ok Json.null) "bogus_tool" [] (by decide)

/-- C7: dispatching `notion_create_page` with `parent_type = "database"` and
`parent_id = X` issues exactly one client call whose request body has
`parent` equal to `{"type": "database_id", "database_id": X}`; with
`parent_type = "page"` the `parent` is `{"type": "page_id", "page_id": X}` —
whatever the properties and the network outcome. -/
theorem c7_create_page_parent_shape (respond : ClientCall → Except String Json)
    (X : String) (P : Json) :
    ((handle_call_tool true respond "notion_create_page"
        [("parent_type", Json.str "database"), ("parent_id", Json.str X),
         ("properties", P)]).calls.map (fun c => (c.data.getD []).lookup "parent"))
      = [some (Json.obj [("type", Json.str "database_id"), ("database_id", Json.str X)])]
    ∧ ((handle_call_tool true respond "notion_create_page"
        [("parent_type", Json.str "page"), ("parent_id", Json.str X),
         ("properties", P)]).calls.map (fun c => (c.data.getD []).lookup "parent"))
      = [some (Json.obj [("type", Json.str "page_id"), ("page_id", Json.str X)])] := by
  constructor
  · have hc : tool_call "notion_create_page"
        [("parent_type", Json.str "database"), ("parent_id", Json.str X), ("properties", P)]
        = some (Except.ok (NotionClient.create_page
            (Json.obj [("type", Json.str "database_id"), ("database_id", Json.str X)])
            P none)) := rfl
    simp only [handle_call_tool, if_true, hc]
    cases hr : respond (NotionClient.create_page
        (Json.obj [("type", Json.str "database_id"), ("database_id", Json.str X)]) P none) <;>
      simp [hr, NotionClient.create_page, create_page_body, withOptJson, List.lookup_cons]
  · have hc : tool_call "notion_create_page"
        [("parent_type", Json.str "page"), ("parent_id", Json.str X), ("properties", P)]
        = some (Except.ok (NotionClient.create_page
            (Json.obj [("type", Json.str "page_id"), ("page_id", Json.str X)])
            P none)) := rfl
    simp only [handle_call_tool, if_true, hc]
    cases hr : respond (NotionClient.create_page
        (Json.obj [("type", Json.str "page_id"), ("page_id", Json.str X)]) P none) <;>
      simp [hr, NotionClient.create_page, create_page_body, withOptJson, List.lookup_cons]
